import Mathlib

/-!
A shallow embedding of the restaurant-reservation tool server (server.py)
and of the tolerant JSON extraction routine of its client (client.py).
Randomness (the uuid token, random.sample, random.randint), upstream HTTP
responses and the subprocess launch are passed in explicitly as oracle
inputs; everything else follows the Python source line by line.
-/

namespace RestaurantReserve

/-- The backtick character (spelled via its code point). -/
def backtick : Char := Char.ofNat 96

/-- The opening curly brace character. -/
def lbrace : Char := Char.ofNat 123

/-- The closing curly brace character. -/
def rbrace : Char := Char.ofNat 125

/-- The opening square bracket character. -/
def lbrack : Char := '['

/-- The closing square bracket character. -/
def rbrack : Char := ']'

/-- Python's str.strip() / regex \s whitespace set (ASCII fragment). -/
def pyIsSpace (c : Char) : Bool :=
  c == ' ' || c == '\t' || c == '\n' || c == '\r' || c == '\x0b' || c == '\x0c'

/-- A regex word character (ASCII fragment of Python's \w). -/
def isWordChar (c : Char) : Bool :=
  ('a' ≤ c && c ≤ 'z') || ('A' ≤ c && c ≤ 'Z') || ('0' ≤ c && c ≤ '9') || c == '_'

/-- Drop characters satisfying p from both ends of a list
(the semantics of Python's str.strip with a character set). -/
def stripEdgesBy (p : Char → Bool) (cs : List Char) : List Char :=
  ((cs.dropWhile p).reverse.dropWhile p).reverse

/-- Python str.strip() on a character list. -/
def pyStripChars (cs : List Char) : List Char := stripEdgesBy pyIsSpace cs

/-- Consume the tail of an opening-fence match: after the three backticks,
the regex r'^(three backticks)\w*\s*\n?' greedily eats word characters,
then whitespace (the optional newline is always subsumed by the greedy \s*).
Returns whether the next scan position is at a line start (the last consumed
character was a newline) together with the remainder of the text. -/
def fenceTail (l : List Char) : Bool × List Char :=
  let afterWord := l.dropWhile isWordChar
  ((afterWord.takeWhile pyIsSpace).getLast? == some '\n',
    afterWord.dropWhile pyIsSpace)

/-- Model of re.sub(r'^(three backticks)\w*\s*\n?', '', cleaned, flags=re.MULTILINE):
scan the text left to right tracking whether the position is a line start;
at a line start, a run of three backticks begins a match whose extent is the
greedy word-character run followed by the greedy whitespace run.  Scanning
resumes at the end of each match, exactly as re.sub does.  The fuel argument
only bounds the recursion; every step consumes at least one character, so
calling with length + 1 fuel is exact. -/
def subOpenFence (fuel : Nat) (atLineStart : Bool) (cs : List Char) : List Char :=
  match fuel with
  | 0 => cs
  | fuel + 1 =>
    match cs with
    | [] => []
    | c :: rest =>
      if atLineStart && c == backtick && rest.take 2 == [backtick, backtick] then
        subOpenFence fuel (fenceTail (rest.drop 2)).1 (fenceTail (rest.drop 2)).2
      else
        c :: subOpenFence fuel (c == '\n') rest

/-- Suffix of l beginning at its last newline character, if any. -/
def sinceLastNl (l : List Char) : Option (List Char) :=
  match l with
  | [] => none
  | c :: rest =>
    match sinceLastNl rest with
    | some s => some s
    | none => if c == '\n' then some (c :: rest) else none

/-- Attempt the tail r'\s*$' (MULTILINE) of the closing-fence pattern on the
text t that follows the three backticks.  The greedy \s* backtracks until the
dollar anchor holds: either the whole remaining text is whitespace (match to
the end of input), or the match stops just before the last newline inside the
leading whitespace run.  Returns the remainder after the match, or none when
no placement of the anchor succeeds. -/
def closeTail (t : List Char) : Option (List Char) :=
  if (t.dropWhile pyIsSpace).isEmpty then some []
  else
    match sinceLastNl (t.takeWhile pyIsSpace) with
    | some v => some (v ++ t.dropWhile pyIsSpace)
    | none => none

/-- Model of re.sub(r'\n?(three backticks)\s*$', '', cleaned, flags=re.MULTILINE):
scan left to right; at each position try the pattern (preferring to consume an
optional leading newline, which is only possible when the current character is
a newline), using closeTail for the anchored whitespace tail.  On a match,
scanning resumes at the match end, exactly as re.sub does.  The fuel argument
only bounds the recursion; every step consumes at least one character, so
calling with length + 1 fuel is exact. -/
def subCloseFence (fuel : Nat) (cs : List Char) : List Char :=
  match fuel with
  | 0 => cs
  | fuel + 1 =>
    match cs with
    | [] => []
    | c :: rest =>
      if c == backtick && rest.take 2 == [backtick, backtick] then
        match closeTail (rest.drop 2) with
        | some v => subCloseFence fuel v
        | none => c :: subCloseFence fuel rest
      else if c == '\n' && rest.take 3 == [backtick, backtick, backtick] then
        match closeTail (rest.drop 3) with
        | some v => subCloseFence fuel v
        | none => c :: subCloseFence fuel rest
      else
        c :: subCloseFence fuel rest

/-- Model of re.search(r'(open).*(close)', s, re.DOTALL): the match, when it
exists, spans from the first opening character to the last closing character
(leftmost start, then greedy extent); it exists when some closing character
occurs strictly after the first opening character. -/
def spanBetween (op cl : Char) (cs : List Char) : Option (List Char) :=
  let fromOpen := cs.dropWhile (fun c => !(c == op))
  let upToClose := (fromOpen.reverse.dropWhile (fun c => !(c == cl))).reverse
  if upToClose.length ≤ 1 then none else some upToClose

/-- Is the next non-whitespace character a closing brace or bracket? -/
def closerNext (cs : List Char) : Bool :=
  match cs.dropWhile pyIsSpace with
  | [] => false
  | c :: _ => c == rbrace || c == rbrack

/-- Model of re.sub(r',(\s*[}(bracket)])', r'(group 1)', s): delete every comma
that is followed, through whitespace only, by a closing brace or bracket.
The replacement keeps group 1, so the net effect of each match is deleting
the comma; matches never overlap because every match starts with a comma and
group 1 contains none. -/
def stripCommaClose (cs : List Char) : List Char :=
  match cs with
  | [] => []
  | c :: rest =>
    if c == ',' && closerNext rest then stripCommaClose rest
    else c :: stripCommaClose rest

theorem stripCommaClose_sublist (cs : List Char) : (stripCommaClose cs).Sublist cs := by
  induction cs with
  | nil => simp [stripCommaClose]
  | cons c rest ih =>
    simp only [stripCommaClose]
    split
    · exact ih.trans (List.sublist_cons_self c rest)
    · exact ih.cons₂ c

/-- JSON whitespace per the json module scanner. -/
def jsonWs (c : Char) : Bool := c == ' ' || c == '\t' || c == '\n' || c == '\r'

/-- JSON values as produced by json.loads.  Numbers keep Python's int/float
distinction; a float literal is modelled as the exact rational it denotes,
stored as a fraction in lowest terms (equal rationals always denote equal
Python floats, and no literal in scope exercises float rounding).  NaN and
the infinities, which json.loads accepts by default, get their own
constructors. -/
inductive Json where
  | jnull
  | jbool (b : Bool)
  | jint (n : Int)
  | jfloat (num : Int) (den : Nat)
  | jnan
  | jinf
  | jninf
  | jstr (s : String)
  | jarr (items : List Json)
  | jobj (members : List (String × Json))

/-- Value of a hexadecimal digit (code points 0-9, a-f, A-F). -/
def hexVal (c : Char) : Option Nat :=
  let n := c.toNat
  if 48 ≤ n && n ≤ 57 then some (n - 48)
  else if 97 ≤ n && n ≤ 102 then some (n - 87)
  else if 65 ≤ n && n ≤ 70 then some (n - 55)
  else none

/-- ASCII decimal digit test. -/
def isDigitCh (c : Char) : Bool := '0' ≤ c && c ≤ '9'

/-- Numeric value of a list of decimal digits. -/
def digitsToNat (ds : List Char) : Nat :=
  ds.foldl (fun acc c => 10 * acc + (c.toNat - '0'.toNat)) 0

/-- Parse four hexadecimal digits at the head of the list. -/
def hex4 (l : List Char) : Option (Nat × List Char) :=
  match l with
  | a :: b :: c :: d :: rest =>
    match hexVal a, hexVal b, hexVal c, hexVal d with
    | some ha, some hb, some hc, some hd =>
      some (((ha * 16 + hb) * 16 + hc) * 16 + hd, rest)
    | _, _, _, _ => none
  | _ => none

/-- The single-character JSON escape sequences. -/
def escChar (e : Char) : Option Char :=
  if e == '"' then some '"'
  else if e == '\\' then some '\\'
  else if e == '/' then some '/'
  else if e == 'b' then some '\x08'
  else if e == 'f' then some '\x0c'
  else if e == 'n' then some '\n'
  else if e == 'r' then some '\r'
  else if e == 't' then some '\t'
  else none

/-- Decode a JSON string body (after the opening quote) per the strict
json.loads decoder: escape sequences are interpreted, unescaped control
characters are rejected, \uXXXX escapes decode code units and a high/low
surrogate escape pair combines into a single character.  The fuel argument
only bounds the recursion; every step consumes at least one character, so
calling with length + 1 fuel is exact. -/
def jstrAux (fuel : Nat) (cs : List Char) : Option (List Char × List Char) :=
  match fuel with
  | 0 => none
  | fuel + 1 =>
    match cs with
    | [] => none
    | c :: rest =>
      if c == '"' then
        some ([], rest)
      else if c == '\\' then
        match rest with
        | [] => none
        | e :: rest2 =>
          if e == 'u' then
            match hex4 rest2 with
            | none => none
            | some (code1, rest3) =>
              if 0xD800 ≤ code1 && code1 < 0xDC00 then
                match rest3 with
                | e2 :: u2 :: tail =>
                  if e2 == '\\' && u2 == 'u' then
                    match hex4 tail with
                    | some (code2, rest4) =>
                      if 0xDC00 ≤ code2 && code2 < 0xE000 then
                        (fun r => (Char.ofNat (0x10000 + (code1 - 0xD800) * 0x400 + (code2 - 0xDC00)) :: r.1, r.2)) <$>
                          jstrAux fuel rest4
                      else
                        (fun r => (Char.ofNat code1 :: r.1, r.2)) <$> jstrAux fuel rest3
                    | none => (fun r => (Char.ofNat code1 :: r.1, r.2)) <$> jstrAux fuel rest3
                  else (fun r => (Char.ofNat code1 :: r.1, r.2)) <$> jstrAux fuel rest3
                | _ => (fun r => (Char.ofNat code1 :: r.1, r.2)) <$> jstrAux fuel rest3
              else
                (fun r => (Char.ofNat code1 :: r.1, r.2)) <$> jstrAux fuel rest3
          else
            match escChar e with
            | some d => (fun r => (d :: r.1, r.2)) <$> jstrAux fuel rest2
            | none => none
      else if c.toNat < 0x20 then none
      else (fun r => (c :: r.1, r.2)) <$> jstrAux fuel rest

/-- Euclid's gcd with explicit fuel (kernel-friendly; the fuel bound den + 1
always suffices because the second argument strictly decreases). -/
def gcdFuel : Nat → Nat → Nat → Nat
  | 0, a, _ => a
  | fuel + 1, a, b => if b == 0 then a else gcdFuel fuel b (a % b)

/-- Reduce a fraction to lowest terms. -/
def normFloat (num : Int) (den : Nat) : Int × Nat :=
  let g := gcdFuel (den + 1) num.natAbs den
  if g == 0 then (0, 1) else (num / (g : Int), den / g)

/-- Parse the JSON number grammar at the head of cs, following the json
module NUMBER_RE: an optional minus sign, an integer part that is 0 alone or
a nonzero-led digit run, an optional fraction and an optional exponent.  A
Python int results when neither fraction nor exponent is present, otherwise a
float (modelled as an exact rational). -/
def parseNumber (cs : List Char) : Option (Json × List Char) :=
  let signSplit : Bool × List Char :=
    match cs with
    | c :: rest => if c == '-' then (true, rest) else (false, cs)
    | [] => (false, cs)
  let neg := signSplit.1
  let cs1 := signSplit.2
  match cs1 with
  | [] => none
  | d :: _ =>
    if !(isDigitCh d) then none
    else
      let ip := if d == '0' then [d] else cs1.takeWhile isDigitCh
      let rest1 := cs1.drop ip.length
      let fracSplit : List Char × List Char :=
        match rest1 with
        | p :: d1 :: t2 =>
          if p == '.' && isDigitCh d1 then
            let fr := (d1 :: t2).takeWhile isDigitCh
            (fr, (d1 :: t2).drop fr.length)
          else ([], rest1)
        | _ => ([], rest1)
      let fr := fracSplit.1
      let rest2 := fracSplit.2
      let expSplit : Option Int × List Char :=
        match rest2 with
        | e :: t =>
          if e == 'e' || e == 'E' then
            let se : Int × List Char :=
              match t with
              | s :: t3 =>
                if s == '+' then (1, t3)
                else if s == '-' then (-1, t3)
                else (1, t)
              | [] => (1, t)
            match se.2 with
            | d1 :: _ =>
              if isDigitCh d1 then
                let ds := se.2.takeWhile isDigitCh
                (some (se.1 * (digitsToNat ds : Int)), se.2.drop ds.length)
              else (none, rest2)
            | [] => (none, rest2)
          else (none, rest2)
        | [] => (none, rest2)
      let expOpt := expSplit.1
      let rest3 := expSplit.2
      if fr.isEmpty && expOpt.isNone then
        let n : Int := digitsToNat ip
        some (Json.jint (if neg then -n else n), rest1)
      else
        let mant : Int := (digitsToNat ip : Int) * (10 : Int) ^ fr.length + (digitsToNat fr : Int)
        let e : Int := expOpt.getD 0
        let num0 : Int := if 0 ≤ e then mant * (10 : Int) ^ e.toNat else mant
        let den0 : Nat := if 0 ≤ e then 10 ^ fr.length else 10 ^ fr.length * 10 ^ (-e).toNat
        let nf := normFloat (if neg then -num0 else num0) den0
        some (Json.jfloat nf.1 nf.2, rest3)

/-- Insert a key/value pair into an association list with Python dict
semantics: an existing key keeps its position and gets the new value, a new
key is appended. -/
def objInsert (kvs : List (String × Json)) (k : String) (v : Json) : List (String × Json) :=
  match kvs with
  | [] => [(k, v)]
  | (k0, v0) :: rest =>
    if k0 = k then (k0, v) :: rest else (k0, v0) :: objInsert rest k v

/-- Does l start with the given keyword? -/
def startsWithList (kw l : List Char) : Bool := l.take kw.length == kw

/-- The three modes of the json scanner: a value, the members of an object
positioned at a key, the items of an array positioned at a value. -/
inductive PJob where
  | pval (cs : List Char)
  | pmembers (acc : List (String × Json)) (cs : List Char)
  | pitems (acc : List Json) (cs : List Char)

/-- The recursive core of json.loads: parse one value (leading whitespace
allowed), or the members of an object, or the items of an array.  The fuel
argument only bounds the recursion depth; every other fuel decrement
consumes at least one character. -/
def jparse (fuel : Nat) (job : PJob) : Option (Json × List Char) :=
  match fuel with
  | 0 => none
  | fuel + 1 =>
    match job with
    | .pval cs =>
      let l := cs.dropWhile jsonWs
      match l with
      | [] => none
      | c :: rest =>
        if c == lbrace then
          let l2 := rest.dropWhile jsonWs
          match l2 with
          | d :: rest2 =>
            if d == rbrace then some (Json.jobj [], rest2)
            else jparse fuel (.pmembers [] l2)
          | [] => none
        else if c == lbrack then
          let l2 := rest.dropWhile jsonWs
          match l2 with
          | d :: rest2 =>
            if d == rbrack then some (Json.jarr [], rest2)
            else jparse fuel (.pitems [] l2)
          | [] => none
        else if c == '"' then
          match jstrAux (rest.length + 1) rest with
          | some (body, rest2) => some (Json.jstr (String.mk body), rest2)
          | none => none
        else if startsWithList ['t', 'r', 'u', 'e'] l then some (Json.jbool true, l.drop 4)
        else if startsWithList ['f', 'a', 'l', 's', 'e'] l then some (Json.jbool false, l.drop 5)
        else if startsWithList ['n', 'u', 'l', 'l'] l then some (Json.jnull, l.drop 4)
        else if startsWithList ['N', 'a', 'N'] l then some (Json.jnan, l.drop 3)
        else if startsWithList ['I', 'n', 'f', 'i', 'n', 'i', 't', 'y'] l then some (Json.jinf, l.drop 8)
        else if startsWithList ['-', 'I', 'n', 'f', 'i', 'n', 'i', 't', 'y'] l then some (Json.jninf, l.drop 9)
        else parseNumber l
    | .pmembers acc cs =>
      match cs with
      | c :: rest =>
        if c == '"' then
          match jstrAux (rest.length + 1) rest with
          | some (key, rest2) =>
            let l3 := rest2.dropWhile jsonWs
            match l3 with
            | d :: rest3 =>
              if d == ':' then
                match jparse fuel (.pval rest3) with
                | some (v, rest4) =>
                  let acc2 := objInsert acc (String.mk key) v
                  let l5 := rest4.dropWhile jsonWs
                  match l5 with
                  | e :: rest5 =>
                    if e == ',' then jparse fuel (.pmembers acc2 (rest5.dropWhile jsonWs))
                    else if e == rbrace then some (Json.jobj acc2, rest5)
                    else none
                  | [] => none
                | none => none
              else none
            | [] => none
          | none => none
        else none
      | [] => none
    | .pitems acc cs =>
      match jparse fuel (.pval cs) with
      | some (v, rest) =>
        let l2 := rest.dropWhile jsonWs
        match l2 with
        | c :: rest2 =>
          if c == ',' then jparse fuel (.pitems (acc ++ [v]) rest2)
          else if c == rbrack then some (Json.jarr (acc ++ [v]), rest2)
          else none
        | [] => none
      | none => none

/-- Model of json.loads on a character list: parse one JSON value with
surrounding whitespace and require that the input is fully consumed.  The
fuel is generous: every other fuel decrement consumes a character. -/
def jsonLoads (cs : List Char) : Option Json :=
  match jparse (2 * cs.length + 8) (.pval cs) with
  | some (v, rest) => if (rest.dropWhile jsonWs).isEmpty then some v else none
  | none => none

/-- A Python argument value for parse_json_response: a string, or any
non-string value (only string-ness matters to the routine, which checks
isinstance(text, str)). -/
inductive PyText where
  | pstr (s : String)
  | nonString

/-- The candidate span that parse_json_response extracts from its input:
strip whitespace, remove opening and closing fence markers, strip stray
backticks and whitespace, then take the greedy outermost brace span, else
the greedy outermost bracket span, else the whole cleaned text. -/
def candidateSpan (s : String) : List Char :=
  let c1 := pyStripChars s.data
  let c2 := subOpenFence (c1.length + 1) true c1
  let c3 := subCloseFence (c2.length + 1) c2
  let c4 := pyStripChars (stripEdgesBy (fun c => c == backtick) c3)
  match spanBetween lbrace rbrace c4 with
  | some c => c
  | none =>
    match spanBetween lbrack rbrack c4 with
    | some c => c
    | none => c4

/-- Model of parse_json_response from client.py: reject empty or non-string
input, extract the candidate span, strictly parse it; on failure remove
trailing commas before closing braces/brackets and retry once; otherwise
fail with a descriptive error. -/
def parse_json_response (text : PyText) : Except String Json :=
  match text with
  | .nonString => .error "Input text must be a non-empty string"
  | .pstr s =>
    if s = "" then .error "Input text must be a non-empty string"
    else
      match jsonLoads (candidateSpan s) with
      | some v => .ok v
      | none =>
        match jsonLoads (stripCommaClose (candidateSpan s)) with
        | some v => .ok v
        | none => .error "Unable to parse JSON from text."

/-- Numeric value of a decimal digit character. -/
def dig (c : Char) : Nat := c.toNat - '0'.toNat

/-- strptime %Y: exactly four digits (the CPython _strptime regex). -/
def altYear (l : List Char) : List (Nat × List Char) :=
  match l with
  | a :: b :: c :: d :: rest =>
    if isDigitCh a && isDigitCh b && isDigitCh c && isDigitCh d then
      [(((dig a * 10 + dig b) * 10 + dig c) * 10 + dig d, rest)]
    else []
  | _ => []

/-- strptime %m: the ordered regex alternatives 1[0-2], 0[1-9], [1-9]. -/
def altMonth (l : List Char) : List (Nat × List Char) :=
  (match l with
   | a :: b :: rest =>
     (if a == '1' && ('0' ≤ b && b ≤ '2') then [(10 + dig b, rest)] else []) ++
     (if a == '0' && ('1' ≤ b && b ≤ '9') then [(dig b, rest)] else [])
   | _ => []) ++
  (match l with
   | a :: rest => if '1' ≤ a && a ≤ '9' then [(dig a, rest)] else []
   | _ => [])

/-- strptime %d: the ordered regex alternatives 3[01], [12][0-9], 0[1-9], [1-9]. -/
def altDay (l : List Char) : List (Nat × List Char) :=
  (match l with
   | a :: b :: rest =>
     (if a == '3' && ('0' ≤ b && b ≤ '1') then [(30 + dig b, rest)] else []) ++
     (if ('1' ≤ a && a ≤ '2') && isDigitCh b then [(dig a * 10 + dig b, rest)] else []) ++
     (if a == '0' && ('1' ≤ b && b ≤ '9') then [(dig b, rest)] else [])
   | _ => []) ++
  (match l with
   | a :: rest => if '1' ≤ a && a ≤ '9' then [(dig a, rest)] else []
   | _ => [])

/-- strptime %H: the ordered regex alternatives 2[0-3], [0-1][0-9], [0-9]. -/
def altHour (l : List Char) : List (Nat × List Char) :=
  (match l with
   | a :: b :: rest =>
     (if a == '2' && ('0' ≤ b && b ≤ '3') then [(20 + dig b, rest)] else []) ++
     (if ('0' ≤ a && a ≤ '1') && isDigitCh b then [(dig a * 10 + dig b, rest)] else [])
   | _ => []) ++
  (match l with
   | a :: rest => if isDigitCh a then [(dig a, rest)] else []
   | _ => [])

/-- strptime %M: the ordered regex alternatives [0-5][0-9], [0-9]. -/
def altMinute (l : List Char) : List (Nat × List Char) :=
  (match l with
   | a :: b :: rest =>
     if ('0' ≤ a && a ≤ '5') && isDigitCh b then [(dig a * 10 + dig b, rest)] else []
   | _ => []) ++
  (match l with
   | a :: rest => if isDigitCh a then [(dig a, rest)] else []
   | _ => [])

/-- A literal character in a strptime format. -/
def litCh (c : Char) (l : List Char) : List (List Char) :=
  match l with
  | x :: rest => if x == c then [rest] else []
  | _ => []

/-- Whitespace in a strptime format compiles to the regex \s+ (greedy; the
following token is always a digit, so the maximal run is the only viable
candidate). -/
def wsPlus (l : List Char) : List (List Char) :=
  match l with
  | c :: _ => if pyIsSpace c then [l.dropWhile pyIsSpace] else []
  | [] => []

/-- All regex matches of the strptime pattern %Y-%m-%d at the start of the
input, in backtracking order. -/
def ymdMatches (l : List Char) : List ((Nat × Nat × Nat) × List Char) :=
  (altYear l).flatMap fun yr =>
    (litCh '-' yr.2).flatMap fun r2 =>
      (altMonth r2).flatMap fun mr =>
        (litCh '-' mr.2).flatMap fun r4 =>
          (altDay r4).map fun dr => ((yr.1, mr.1, dr.1), dr.2)

/-- All regex matches of the strptime pattern %Y-%m-%d %H:%M at the start of
the input, in backtracking order. -/
def ymdhmMatches (l : List Char) : List ((Nat × Nat × Nat × Nat × Nat) × List Char) :=
  (ymdMatches l).flatMap fun dr =>
    (wsPlus dr.2).flatMap fun r5 =>
      (altHour r5).flatMap fun hr =>
        (litCh ':' hr.2).flatMap fun r7 =>
          (altMinute r7).map fun mr =>
            ((dr.1.1, dr.1.2.1, dr.1.2.2, hr.1, mr.1), mr.2)

/-- Gregorian leap-year test, as datetime uses. -/
def isLeapYear (y : Nat) : Bool := y % 4 == 0 && (y % 100 != 0 || y % 400 == 0)

/-- Days in a month of the proleptic Gregorian calendar. -/
def daysInMonth (y m : Nat) : Nat :=
  if m == 2 then (if isLeapYear y then 29 else 28)
  else if m == 4 || m == 6 || m == 9 || m == 11 then 30
  else 31

/-- datetime.strptime(s, "%Y-%m-%d"): the regex engine returns the first
match in backtracking order (it backtracks only to satisfy the pattern, not
to consume the whole string); strptime then requires that the match consumed
the entire input, and the datetime constructor validates the field ranges
(year at least 1, day within the month). -/
def strptimeYMD (s : String) : Option (Nat × Nat × Nat) :=
  match ymdMatches s.data with
  | ((y, m, d), rest) :: _ =>
    if rest.isEmpty && 1 ≤ y && d ≤ daysInMonth y m then some (y, m, d) else none
  | [] => none

/-- A Python naive datetime at minute granularity, represented by its count
of minutes since 0001-01-01 00:00 in the proleptic Gregorian calendar (the
calendar datetime uses).  timedelta arithmetic is plain integer arithmetic
in this representation. -/
structure DateTime where
  mins : Int
deriving DecidableEq

/-- Days in all years before year y (proleptic Gregorian). -/
def daysBeforeYear (y : Nat) : Nat :=
  365 * (y - 1) + (y - 1) / 4 - (y - 1) / 100 + (y - 1) / 400

/-- Days in the months of year y before month m. -/
def daysBeforeMonth (y m : Nat) : Nat :=
  (List.range (m - 1)).foldl (fun acc i => acc + daysInMonth y (i + 1)) 0

/-- Build the datetime for validated calendar fields. -/
def mkDateTime (y m d h mi : Nat) : DateTime :=
  ⟨(((daysBeforeYear y + daysBeforeMonth y m + (d - 1)) * 24 + h) * 60 + mi : Nat)⟩

/-- datetime + timedelta(minutes=k). -/
def addMinutes (t : DateTime) (k : Int) : DateTime := ⟨t.mins + k⟩

/-- datetime.strptime(s, "%Y-%m-%d %H:%M") as a datetime value. -/
def strptimeYMDHM (s : String) : Option DateTime :=
  match ymdhmMatches s.data with
  | ((y, m, d, h, mi), rest) :: _ =>
    if rest.isEmpty && 1 ≤ y && d ≤ daysInMonth y m then some (mkDateTime y m d h mi)
    else none
  | [] => none

/-- Recover the year and day-of-year from a day count (fueled linear scan;
years are bounded by 9999 in every reachable value). -/
def civilYearLoop (fuel y days : Nat) : Nat × Nat :=
  match fuel with
  | 0 => (y, days)
  | fuel + 1 =>
    let len := if isLeapYear y then 366 else 365
    if days < len then (y, days) else civilYearLoop fuel (y + 1) (days - len)

/-- Recover the month and day-of-month offset from a day-of-year. -/
def civilMonthLoop (fuel y m days : Nat) : Nat × Nat :=
  match fuel with
  | 0 => (m, days)
  | fuel + 1 =>
    if days < daysInMonth y m then (m, days) else civilMonthLoop fuel y (m + 1) (days - daysInMonth y m)

/-- Zero-padded two-digit rendering. -/
def pad2 (n : Nat) : String := if n < 10 then "0" ++ toString n else toString n

/-- Zero-padded four-digit rendering. -/
def pad4 (n : Nat) : String :=
  if n < 10 then "000" ++ toString n
  else if n < 100 then "00" ++ toString n
  else if n < 1000 then "0" ++ toString n
  else toString n

/-- datetime.isoformat() for a minute-granularity datetime: the seconds field
is rendered as 00 and the zero microseconds are omitted. -/
def isoformat (t : DateTime) : String :=
  let total := t.mins.toNat
  let mi := total % 60
  let hrs := total / 60
  let h := hrs % 24
  let days := hrs / 24
  let yd := civilYearLoop 10000 1 days
  let md := civilMonthLoop 12 yd.1 1 yd.2
  pad4 yd.1 ++ "-" ++ pad2 md.1 ++ "-" ++ pad2 (md.2 + 1) ++ "T" ++ pad2 h ++ ":" ++ pad2 mi ++ ":00"

/-- The Reservation dataclass from server.py. -/
structure Reservation where
  reservation_id : String
  restaurant_name : String
  restaurant_address : String
  date_time : DateTime
  party_size : Int
  customer_name : String
  customer_email : String
  special_requests : String
  status : String
deriving DecidableEq

/-- The arguments of make_reservation. -/
structure MakeArgs where
  restaurant_name : String
  restaurant_address : String
  date : String
  time : String
  party_size : Int
  customer_name : String
  customer_email : String
  special_requests : String
deriving DecidableEq

/-- The success payload of make_reservation (the confirmation dictionary). -/
structure MakeOut where
  status : String
  reservation_id : String
  restaurant_name : String
  restaurant_address : String
  date_time : String
  party_size : Int
  customer_name : String
  customer_email : String
  special_requests : String
  message : String
deriving DecidableEq

/-- str(uuid.uuid4())[:8].upper(), with the random uuid string supplied as an
oracle input. -/
def genReservationId (token : String) : String :=
  String.mk ((token.data.take 8).map Char.toUpper)

/-- make_reservation from server.py: parse the combined date/time, build the
reservation with a fresh identifier, append it to the store, and echo the
fields.  The exception text of a failed parse is elided in the model. -/
def make_reservation (a : MakeArgs) (token : String) (db : List Reservation) :
    Except String MakeOut × List Reservation :=
  match strptimeYMDHM (a.date ++ " " ++ a.time) with
  | none => (.error "Invalid date/time format", db)
  | some dt =>
    let rid := genReservationId token
    let r : Reservation :=
      { reservation_id := rid
        restaurant_name := a.restaurant_name
        restaurant_address := a.restaurant_address
        date_time := dt
        party_size := a.party_size
        customer_name := a.customer_name
        customer_email := a.customer_email
        special_requests := a.special_requests
        status := "confirmed" }
    (.ok
      { status := "confirmed"
        reservation_id := rid
        restaurant_name := a.restaurant_name
        restaurant_address := a.restaurant_address
        date_time := isoformat dt
        party_size := a.party_size
        customer_name := a.customer_name
        customer_email := a.customer_email
        special_requests := a.special_requests
        message := "Reservation confirmed for " ++ a.customer_name ++ " at " ++
          a.restaurant_name ++ " on " ++ a.date ++ " at " ++ a.time ++ " for " ++
          toString a.party_size ++ " people." },
      db ++ [r])

/-- str.lower() (ASCII fragment; every string in scope is ASCII). -/
def pyLower (s : String) : String := String.mk (s.data.map Char.toLower)

/-- One record of the list_reservations output. -/
structure ResRecord where
  reservation_id : String
  restaurant_name : String
  restaurant_address : String
  date_time : String
  party_size : Int
  customer_name : String
  customer_email : String
  special_requests : String
  status : String
deriving DecidableEq

/-- The record list_reservations builds for a stored reservation. -/
def toRecord (r : Reservation) : ResRecord :=
  { reservation_id := r.reservation_id
    restaurant_name := r.restaurant_name
    restaurant_address := r.restaurant_address
    date_time := isoformat r.date_time
    party_size := r.party_size
    customer_name := r.customer_name
    customer_email := r.customer_email
    special_requests := r.special_requests
    status := r.status }

/-- The success payload of list_reservations. -/
structure ListOut where
  reservations : List ResRecord
  total_count : Nat
  filter_email : String
deriving DecidableEq

/-- list_reservations from server.py: linear scan keeping the reservations
whose email matches the filter case-insensitively (an empty filter keeps
everything); the body cannot raise, so the except branch is unreachable. -/
def list_reservations (db : List Reservation) (customer_email : String) :
    Except String ListOut :=
  let filtered := (db.filter fun r =>
    customer_email == "" || pyLower r.customer_email == pyLower customer_email).map toRecord
  .ok
    { reservations := filtered
      total_count := filtered.length
      filter_email := if customer_email == "" then "none" else customer_email }

/-- The success payload of generate_calendar_invite. -/
structure InviteOut where
  status : String
  reservation_id : String
  filename : String
  event_title : String
  event_start : String
  event_end : String
  location : String
  ics_content : String
  message : String
deriving DecidableEq

/-- The serialization produced by the external ics library, modelled
abstractly as a function of the event fields. -/
def icsContent (r : Reservation) (durationMinutes : Int) : String :=
  "BEGIN:VCALENDAR Dinner at " ++ r.restaurant_name ++ " " ++ isoformat r.date_time ++
    " " ++ isoformat (addMinutes r.date_time durationMinutes) ++ " END:VCALENDAR"

/-- Does a minute-granularity datetime lie in Python's representable range,
year 1 to 9999?  datetime + timedelta raises OverflowError exactly when the
result leaves this range. -/
def dtInRange (t : DateTime) : Bool :=
  0 ≤ t.mins && t.mins < (daysBeforeYear 10000 : Int) * 1440

/-- generate_calendar_invite from server.py.  The second component collects
the files written, in order.  The event-end computation
reservation.date_time + timedelta(minutes=duration_minutes) happens before
the file write and raises OverflowError when the sum leaves the datetime
range; the surrounding except then returns an error with no file written.
openLaunchOk tells whether the subprocess call launching the platform opener
succeeds (when it raises, the same except converts the exception into an
error result, but only after the file write). -/
def generate_calendar_invite (db : List Reservation) (reservation_id : String)
    (duration_minutes : Int) (openLaunchOk : Bool) :
    Except String InviteOut × List String :=
  match db.find? (fun r => r.reservation_id == reservation_id) with
  | none => (.error ("Reservation " ++ reservation_id ++ " not found"), [])
  | some r =>
    if dtInRange (addMinutes r.date_time duration_minutes) then
      let filename := "reservation_" ++ reservation_id ++ ".ics"
      if openLaunchOk then
        (.ok
          { status := "success"
            reservation_id := reservation_id
            filename := filename
            event_title := "Dinner at " ++ r.restaurant_name
            event_start := isoformat r.date_time
            event_end := isoformat (addMinutes r.date_time duration_minutes)
            location := r.restaurant_address
            ics_content := icsContent r duration_minutes
            message := "Calendar invite generated: " ++ filename },
          [filename])
      else
        (.error "Failed to generate calendar invite: subprocess launch failed", [filename])
    else
      (.error "Failed to generate calendar invite: date value out of range", [])

/-- The success payload of get_available_slots. -/
structure SlotsOut where
  restaurant_name : String
  date : String
  party_size : Int
  available_slots : List String
  note : String
deriving DecidableEq

/-- The fixed candidate time slots of get_available_slots. -/
def base_times : List String :=
  ["17:00", "17:30", "18:00", "18:30", "19:00", "19:30", "20:00", "20:30", "21:00"]

/-- get_available_slots from server.py.  The library call
random.sample(base_times, k=random.randint(4, 7)) is an oracle input: sample
is the list the library returns (k distinct elements drawn from base_times,
with 4 to 7 of them, stated as hypotheses where needed); the code then sorts
it in place. -/
def get_available_slots (restaurant_name date : String) (party_size : Int)
    (sample : List String) : Except String SlotsOut :=
  match strptimeYMD date with
  | none => .error "Invalid date format. Use YYYY-MM-DD"
  | some _ =>
    .ok
      { restaurant_name := restaurant_name
        date := date
        party_size := party_size
        available_slots := sample.insertionSort (· ≤ ·)
        note := "These are mock time slots. In a real implementation, this would connect to the restaurant's booking system." }

/-- One element of the places API results list, with the optional fields the
code reads. -/
structure PlaceResult where
  place_id : String
  name : String
  vicinity : String
  rating : Option ℚ
  price_level : Option Int
  types : List String
  open_now : Option Bool
deriving DecidableEq

/-- The enrichment that get_restaurant_details may return. -/
structure DetailInfo where
  phone : String
  website : String
  opening_hours : List String
deriving DecidableEq

/-- A restaurant entry of the search result; the detail fields added by
dict.update are kept separately (update never touches the original keys,
because get_restaurant_details only returns phone/website/opening_hours). -/
structure RestEntry where
  place_id : String
  name : String
  address : String
  rating : ℚ
  price_level : Int
  types : List String
  open_now : Option Bool
  details : Option DetailInfo
deriving DecidableEq

/-- The success payload of search_restaurants. -/
structure SearchOut where
  restaurants : List RestEntry
  total_found : Nat
  search_location : String
  coordinates : ℚ × ℚ
deriving DecidableEq

/-- Python list slicing xs[:m] for an arbitrary int m (a negative bound
counts from the end). -/
def pySliceTo {α : Type} (xs : List α) (m : Int) : List α :=
  if 0 ≤ m then xs.take m.toNat else xs.take ((xs.length : Int) + m).toNat

/-- The restaurant dictionary built for one filtered result. -/
def buildEntry (r : PlaceResult) : RestEntry :=
  { place_id := r.place_id
    name := r.name
    address := r.vicinity
    rating := r.rating.getD 0
    price_level := r.price_level.getD 0
    types := r.types
    open_now := r.open_now
    details := none }

/-- search_restaurants from server.py.  Configuration and the upstream HTTP
responses are oracle inputs: hasApiKey for the configured key, geocodeResults
for the geocode results list, placesResults for the nearby-search results key
(none meaning the key is missing), getDetails for the place-details lookup. -/
def search_restaurants (hasApiKey : Bool) (location : String)
    (geocodeResults : List (ℚ × ℚ)) (placesResults : Option (List PlaceResult))
    (getDetails : String → Option DetailInfo) (min_rating : ℚ) (max_results : Int) :
    Except String SearchOut :=
  if !hasApiKey then .error "Google Places API key not configured"
  else
    match geocodeResults with
    | [] => .error ("Could not find location: " ++ location)
    | coord :: _ =>
      match placesResults with
      | none => .error "No restaurants found"
      | some results =>
        let restaurants := ((pySliceTo results max_results).filter
          (fun r => decide (min_rating ≤ r.rating.getD 0))).map buildEntry
        let detailed := (restaurants.take 5).map fun e =>
          match getDetails e.place_id with
          | some d => { e with details := some d }
          | none => e
        .ok
          { restaurants := detailed
            total_found := restaurants.length
            search_location := location
            coordinates := coord }

section Theorems

set_option maxRecDepth 8000

/-- C4: the tolerant JSON extraction satisfies the three concrete cases: a
fenced json block yields exactly its mapping, a mapping with a trailing comma
yields the mapping without it, and prose without JSON yields the descriptive
error rather than any value. -/
theorem c4_json_extraction_cases :
    parse_json_response (.pstr "```json\n\x7b\"location\": \"LA\", \"min_rating\": 4.0\x7d\n```") =
      .ok (Json.jobj [("location", Json.jstr "LA"), ("min_rating", Json.jfloat 4 1)]) ∧
    parse_json_response (.pstr "\x7b\"a\": 1,\x7d") = .ok (Json.jobj [("a", Json.jint 1)]) ∧
    parse_json_response (.pstr "no json here") = .error "Unable to parse JSON from text." :=
  ⟨rfl, rfl, rfl⟩

/-- C5: whenever the extraction returns a mapping, that value is the strict
JSON parse of a subsequence of the extracted candidate span — the
trailing-comma repair only deletes characters, so nothing outside the span
is invented; and empty or non-string input fails immediately. -/
theorem c5_no_invented_fields :
    (∀ (s : String) (v : Json), parse_json_response (.pstr s) = .ok v →
      ∃ c : List Char, c.Sublist (candidateSpan s) ∧ jsonLoads c = some v) ∧
    parse_json_response (.pstr "") = .error "Input text must be a non-empty string" ∧
    parse_json_response .nonString = .error "Input text must be a non-empty string" := by
  refine ⟨?_, rfl, rfl⟩
  intro s v h
  simp only [parse_json_response] at h
  by_cases hs : s = ""
  · simp [hs] at h
  · rw [if_neg hs] at h
    cases h1 : jsonLoads (candidateSpan s) with
    | some w =>
      rw [h1] at h
      cases h
      exact ⟨candidateSpan s, List.Sublist.refl _, h1⟩
    | none =>
      rw [h1] at h
      cases h2 : jsonLoads (stripCommaClose (candidateSpan s)) with
      | some w =>
        rw [h2] at h
        cases h
        exact ⟨_, stripCommaClose_sublist _, h2⟩
      | none =>
        rw [h2] at h
        cases h

/-- C5 witness: the theorem applied to the trailing-comma input. -/
theorem c5_no_invented_fields_witness :
    ∃ c : List Char, c.Sublist (candidateSpan "\x7b\"a\": 1,\x7d") ∧
      jsonLoads c = some (Json.jobj [("a", Json.jint 1)]) :=
  c5_no_invented_fields.1 "\x7b\"a\": 1,\x7d" (Json.jobj [("a", Json.jint 1)]) rfl

/-- C2: for every date string that parses as YYYY-MM-DD, get_available_slots
succeeds with a sorted, non-empty, duplicate-free subset of the fixed nine
candidate slots, of size between 4 and 7 (the size, distinctness and
membership of the random sample are the random module's guarantees, taken as
hypotheses); for every date string that does not parse it returns the error
mapping and nothing else. -/
theorem c2_available_slots (name date : String) (psize : Int) (k : Nat)
    (sample : List String) (hk4 : 4 ≤ k) (hk7 : k ≤ 7) (hlen : sample.length = k)
    (hnd : sample.Nodup) (hmem : ∀ x ∈ sample, x ∈ base_times) :
    (∀ ymd, strptimeYMD date = some ymd →
      ∃ out, get_available_slots name date psize sample = .ok out ∧
        out.available_slots.Sorted (· ≤ ·) ∧
        out.available_slots ≠ [] ∧
        out.available_slots.Nodup ∧
        (∀ x ∈ out.available_slots, x ∈ base_times) ∧
        4 ≤ out.available_slots.length ∧ out.available_slots.length ≤ 7) ∧
    (strptimeYMD date = none →
      get_available_slots name date psize sample =
        .error "Invalid date format. Use YYYY-MM-DD") := by
  have hperm : (sample.insertionSort (· ≤ ·)).Perm sample :=
    List.perm_insertionSort _ sample
  have hl : (sample.insertionSort (· ≤ ·)).length = sample.length := hperm.length_eq
  constructor
  · intro ymd hymd
    have heq : get_available_slots name date psize sample = .ok
        { restaurant_name := name
          date := date
          party_size := psize
          available_slots := sample.insertionSort (· ≤ ·)
          note := "These are mock time slots. In a real implementation, this would connect to the restaurant's booking system." } := by
      unfold get_available_slots
      rw [hymd]
    refine ⟨_, heq, ?_, ?_, ?_, ?_, ?_, ?_⟩
    · exact List.sorted_insertionSort _ _
    · have hpos : 0 < (sample.insertionSort (· ≤ ·)).length := by omega
      exact List.length_pos.mp hpos
    · exact hperm.nodup_iff.mpr hnd
    · intro x hx
      exact hmem x (hperm.mem_iff.mp hx)
    · show 4 ≤ (sample.insertionSort (· ≤ ·)).length
      omega
    · show (sample.insertionSort (· ≤ ·)).length ≤ 7
      omega
  · intro h
    unfold get_available_slots
    rw [h]

/-- C2 witness: the theorem applied to a concrete valid date and sample, and
the error branch evaluated at a concrete invalid date. -/
theorem c2_available_slots_witness :
    (∃ out, get_available_slots "Trattoria" "2025-12-31" 2
        ["18:00", "17:00", "20:30", "19:00"] = .ok out ∧
      out.available_slots.Sorted (· ≤ ·) ∧
      out.available_slots ≠ [] ∧
      out.available_slots.Nodup ∧
      (∀ x ∈ out.available_slots, x ∈ base_times) ∧
      4 ≤ out.available_slots.length ∧ out.available_slots.length ≤ 7) ∧
    get_available_slots "Trattoria" "not-a-date" 2
        ["18:00", "17:00", "20:30", "19:00"] =
      .error "Invalid date format. Use YYYY-MM-DD" :=
  ⟨(c2_available_slots "Trattoria" "2025-12-31" 2 4 ["18:00", "17:00", "20:30", "19:00"]
      (by decide) (by decide) (by decide) (by decide) (by decide)).1
      (2025, 12, 31) rfl,
    (c2_available_slots "Trattoria" "not-a-date" 2 4 ["18:00", "17:00", "20:30", "19:00"]
      (by decide) (by decide) (by decide) (by decide) (by decide)).2 rfl⟩

/-- C1: after a successful make_reservation, the returned reservation_id
appears in list_reservations output — with no filter and with the same
customer_email filter — even after any later appends (the store is
append-only), and the listed record's fields agree with the echoed fields. -/
theorem c1_reservation_listed (a : MakeArgs) (token : String) (db : List Reservation)
    (out : MakeOut) (db' : List Reservation)
    (h : make_reservation a token db = (.ok out, db'))
    (extra : List Reservation) (filt : String)
    (hf : filt = "" ∨ filt = a.customer_email) :
    ∃ lo, list_reservations (db' ++ extra) filt = .ok lo ∧
      ∃ rec ∈ lo.reservations,
        rec.reservation_id = out.reservation_id ∧
        rec.restaurant_name = out.restaurant_name ∧
        rec.restaurant_address = out.restaurant_address ∧
        rec.date_time = out.date_time ∧
        rec.party_size = out.party_size ∧
        rec.customer_name = out.customer_name ∧
        rec.customer_email = out.customer_email ∧
        rec.special_requests = out.special_requests ∧
        rec.status = out.status := by
  simp only [make_reservation] at h
  cases hdt : strptimeYMDHM (a.date ++ " " ++ a.time) with
  | none =>
    rw [hdt] at h
    simp at h
  | some dt =>
    rw [hdt] at h
    simp only [Prod.mk.injEq, Except.ok.injEq] at h
    obtain ⟨h1, h2⟩ := h
    subst h1
    subst h2
    refine ⟨_, rfl, ?_⟩
    refine ⟨toRecord
      { reservation_id := genReservationId token
        restaurant_name := a.restaurant_name
        restaurant_address := a.restaurant_address
        date_time := dt
        party_size := a.party_size
        customer_name := a.customer_name
        customer_email := a.customer_email
        special_requests := a.special_requests
        status := "confirmed" }, ?_, rfl, rfl, rfl, rfl, rfl, rfl, rfl, rfl, rfl⟩
    apply List.mem_map_of_mem
    apply List.mem_filter.mpr
    constructor
    · simp
    · rcases hf with hf | hf <;> subst hf <;> simp

/-- C1 witness: a concrete successful reservation is listed with matching
fields under its own email filter. -/
theorem c1_reservation_listed_witness :
    ∃ out db', make_reservation
        { restaurant_name := "Rossi"
          restaurant_address := "1 Via Roma"
          date := "0001-01-02"
          time := "19:00"
          party_size := 2
          customer_name := "Bob"
          customer_email := "bob@x.com"
          special_requests := "" }
        "a1b2c3d4e5" [] = (.ok out, db') ∧
      ∃ lo, list_reservations (db' ++ []) "bob@x.com" = .ok lo ∧
        ∃ rec ∈ lo.reservations,
          rec.reservation_id = out.reservation_id ∧
          rec.restaurant_name = out.restaurant_name ∧
          rec.restaurant_address = out.restaurant_address ∧
          rec.date_time = out.date_time ∧
          rec.party_size = out.party_size ∧
          rec.customer_name = out.customer_name ∧
          rec.customer_email = out.customer_email ∧
          rec.special_requests = out.special_requests ∧
          rec.status = out.status :=
  ⟨_, _, rfl,
    c1_reservation_listed
      { restaurant_name := "Rossi"
        restaurant_address := "1 Via Roma"
        date := "0001-01-02"
        time := "19:00"
        party_size := 2
        customer_name := "Bob"
        customer_email := "bob@x.com"
        special_requests := "" }
      "a1b2c3d4e5" [] _ _ rfl [] "bob@x.com" (Or.inr rfl)⟩

/-- A sample stored reservation used by concrete witnesses. -/
def sampleRes : Reservation :=
  { reservation_id := "AB12CD34"
    restaurant_name := "Rossi"
    restaurant_address := "1 Via Roma"
    date_time := ⟨570⟩
    party_size := 2
    customer_name := "Bob"
    customer_email := "bob@x.com"
    special_requests := ""
    status := "confirmed" }

/-- C3: generate_calendar_invite for an identifier not in the store returns
the error mapping and writes no file; for a stored identifier, whenever it
returns a success payload, the returned event end minus the returned event
start is exactly duration_minutes minutes. -/
theorem c3_calendar_invite (db : List Reservation) (rid : String) (dur : Int)
    (launchOk : Bool) :
    (db.find? (fun x => x.reservation_id == rid) = none →
      generate_calendar_invite db rid dur launchOk =
        (.error ("Reservation " ++ rid ++ " not found"), [])) ∧
    (∀ r, db.find? (fun x => x.reservation_id == rid) = some r →
      ∀ out, (generate_calendar_invite db rid dur launchOk).1 = .ok out →
        ∃ s e : DateTime, out.event_start = isoformat s ∧ out.event_end = isoformat e ∧
          e.mins - s.mins = dur) := by
  constructor
  · intro h
    unfold generate_calendar_invite
    rw [h]
  · intro r hr out hout
    unfold generate_calendar_invite at hout
    rw [hr] at hout
    by_cases hin : dtInRange (addMinutes r.date_time dur) = true
    · cases launchOk with
      | false => simp [hin] at hout
      | true =>
        simp only [hin, if_true, Except.ok.injEq] at hout
        subst hout
        refine ⟨r.date_time, addMinutes r.date_time dur, rfl, rfl, ?_⟩
        show (r.date_time.mins + dur) - r.date_time.mins = dur
        omega
    · rw [Bool.not_eq_true] at hin
      simp [hin] at hout

/-- C3 witness: the unknown-identifier branch and the duration equation at a
concrete store. -/
theorem c3_calendar_invite_witness :
    generate_calendar_invite [] "ZZ" 90 true =
      (.error ("Reservation " ++ "ZZ" ++ " not found"), []) ∧
    ∃ out, (generate_calendar_invite [sampleRes] "AB12CD34" 90 true).1 = .ok out ∧
      ∃ s e : DateTime, out.event_start = isoformat s ∧ out.event_end = isoformat e ∧
        e.mins - s.mins = 90 :=
  ⟨(c3_calendar_invite [] "ZZ" 90 true).1 rfl,
    ⟨_, rfl, (c3_calendar_invite [sampleRes] "AB12CD34" 90 true).2 sampleRes rfl _ rfl⟩⟩

/-- Arguments storing a reservation at the edge of the datetime range. -/
def mkArgsMax : MakeArgs :=
  { restaurant_name := "Rossi"
    restaurant_address := "1 Via Roma"
    date := "9999-12-31"
    time := "23:00"
    party_size := 2
    customer_name := "Bob"
    customer_email := "bob@x.com"
    special_requests := "" }

/-- The reservation that mkArgsMax stores: 9999-12-31 23:00, sixty minutes
before the end of the datetime range. -/
def resMax : Reservation :=
  { reservation_id := "FFFFFFFF"
    restaurant_name := "Rossi"
    restaurant_address := "1 Via Roma"
    date_time := ⟨5258964900⟩
    party_size := 2
    customer_name := "Bob"
    customer_email := "bob@x.com"
    special_requests := ""
    status := "confirmed" }

/-- C10 counterexample: a reservation legitimately stored by make_reservation
at 9999-12-31 23:00 makes the event-end addition overflow with the default
duration of 90 minutes — OverflowError is raised before the file write — so
although the identifier is present in the store the call returns an error
mapping and no file is written, refuting the unconditional write-before-
return guarantee. -/
theorem c10_overflow_counterexample :
    (make_reservation mkArgsMax "ffffffff" []).2 = [resMax] ∧
    ([resMax].find? (fun x => x.reservation_id == "FFFFFFFF")).isSome = true ∧
    (generate_calendar_invite [resMax] "FFFFFFFF" 90 true).2 = [] ∧
    (generate_calendar_invite [resMax] "FFFFFFFF" 90 true).1 =
      .error "Failed to generate calendar invite: date value out of range" :=
  ⟨rfl, rfl, rfl, rfl⟩

/-- C10 amended: for a stored identifier, whenever the event-end addition
date_time + duration_minutes stays within the datetime range, the calendar
file is written before the operation returns, and a failing subprocess
launch then yields an error mapping although the write already happened (so
an error result does not imply no file was written); when the addition
overflows — OverflowError at the event-end computation, which precedes the
write — the call returns an error mapping with no file written. -/
theorem c10_write_precedes_error (db : List Reservation) (rid : String) (dur : Int)
    (launchOk : Bool) (r : Reservation)
    (hr : db.find? (fun x => x.reservation_id == rid) = some r) :
    (dtInRange (addMinutes r.date_time dur) = true →
      (generate_calendar_invite db rid dur launchOk).2 =
        ["reservation_" ++ rid ++ ".ics"] ∧
      (launchOk = false →
        (generate_calendar_invite db rid dur launchOk).1 =
          .error "Failed to generate calendar invite: subprocess launch failed")) ∧
    (dtInRange (addMinutes r.date_time dur) = false →
      (generate_calendar_invite db rid dur launchOk).2 = [] ∧
      (generate_calendar_invite db rid dur launchOk).1 =
        .error "Failed to generate calendar invite: date value out of range") := by
  unfold generate_calendar_invite
  rw [hr]
  constructor
  · intro hin
    simp only [hin, if_true]
    cases launchOk with
    | false => exact ⟨rfl, fun _ => rfl⟩
    | true => exact ⟨rfl, fun hc => by cases hc⟩
  · intro hin
    simp [hin]

/-- C10 amended witness: at a concrete store with an in-range event end and
a failing subprocess launch, the file is recorded as written and the result
is the error mapping. -/
theorem c10_write_precedes_error_witness :
    (generate_calendar_invite [sampleRes] "AB12CD34" 90 false).2 =
      ["reservation_" ++ "AB12CD34" ++ ".ics"] ∧
    (generate_calendar_invite [sampleRes] "AB12CD34" 90 false).1 =
      .error "Failed to generate calendar invite: subprocess launch failed" := by
  have h := (c10_write_precedes_error [sampleRes] "AB12CD34" 90 false sampleRes rfl).1 rfl
  exact ⟨h.1, h.2 rfl⟩

/-- C7: with a non-empty filter email, list_reservations returns exactly the
stored reservations whose customer_email matches the filter
case-insensitively, in insertion order, with total_count the number of
matches and the filter echoed (so an unmatched filter yields the empty list
and total_count 0); and for every store and filter it returns a success
mapping, never an error. -/
theorem c7_list_filter :
    (∀ (db : List Reservation) (email : String), email ≠ "" →
      list_reservations db email = .ok
        { reservations :=
            (db.filter fun r => pyLower r.customer_email == pyLower email).map toRecord
          total_count :=
            ((db.filter fun r => pyLower r.customer_email == pyLower email).map toRecord).length
          filter_email := email }) ∧
    (∀ (db : List Reservation) (email : String),
      ∃ lo, list_reservations db email = .ok lo) := by
  constructor
  · intro db email he
    have hne : (email == "") = false := by
      simp only [beq_eq_false_iff_ne, ne_eq]
      exact he
    unfold list_reservations
    simp [hne]
  · intro db email
    exact ⟨_, rfl⟩

/-- Two sample reservations differing in the case of their emails. -/
def resLower : Reservation :=
  { reservation_id := "11111111"
    restaurant_name := "Rossi"
    restaurant_address := "1 Via Roma"
    date_time := ⟨570⟩
    party_size := 2
    customer_name := "Ann"
    customer_email := "a@x.com"
    special_requests := ""
    status := "confirmed" }

/-- Companion to resLower with the uppercase email spelling. -/
def resUpper : Reservation :=
  { reservation_id := "22222222"
    restaurant_name := "Rossi"
    restaurant_address := "1 Via Roma"
    date_time := ⟨570⟩
    party_size := 3
    customer_name := "Ann"
    customer_email := "A@X.com"
    special_requests := "window"
    status := "confirmed" }

/-- C7 witness: reservations stored under the two email spellings are both
returned when filtering by the lowercase one. -/
theorem c7_list_filter_witness :
    list_reservations [resLower, resUpper] "a@x.com" = .ok
      { reservations := [toRecord resLower, toRecord resUpper]
        total_count := 2
        filter_email := "a@x.com" } := by
  have h := c7_list_filter.1 [resLower, resUpper] "a@x.com" (by decide)
  exact h

/-- Sample make_reservation arguments used by concrete counterexamples and
witnesses. -/
def mkArgsA : MakeArgs :=
  { restaurant_name := "Rossi"
    restaurant_address := "1 Via Roma"
    date := "0001-01-02"
    time := "19:00"
    party_size := 2
    customer_name := "Bob"
    customer_email := "bob@x.com"
    special_requests := "" }

/-- A second, different set of make_reservation arguments. -/
def mkArgsB : MakeArgs :=
  { restaurant_name := "Luigi"
    restaurant_address := "2 Via Milano"
    date := "0001-01-03"
    time := "20:00"
    party_size := 4
    customer_name := "Eve"
    customer_email := "eve@y.com"
    special_requests := "quiet table" }

/-- C8 counterexample: two successful make_reservation calls with different
inputs whose random uuid tokens share their first eight characters produce
the same reservation_id, and the store then violates identifier uniqueness —
the code never checks the generated identifier against the store. -/
theorem c8_duplicate_id_counterexample :
    ∃ o1 db1 o2 db2,
      make_reservation mkArgsA "9f3ab77c-1111" [] = (.ok o1, db1) ∧
      make_reservation mkArgsB "9f3ab77c-2222" db1 = (.ok o2, db2) ∧
      mkArgsA ≠ mkArgsB ∧
      o1.reservation_id = o2.reservation_id ∧
      ¬ (db2.map Reservation.reservation_id).Nodup :=
  ⟨_, _, _, _, rfl, rfl, by decide, rfl, by decide⟩

/-- C8 amended: identifiers from two successful calls are distinct whenever
the uppercased 8-character prefixes of their random uuid tokens differ, and
a store with pairwise-distinct identifiers keeps that invariant across any
successful make_reservation whose fresh identifier is not already present:
uniqueness is a guarantee assumed of the random source, not enforced by the
code. -/
theorem c8_id_uniqueness :
    (∀ (a1 a2 : MakeArgs) (t1 t2 : String) (db db1 db2 : List Reservation)
        (o1 o2 : MakeOut),
      genReservationId t1 ≠ genReservationId t2 →
      make_reservation a1 t1 db = (.ok o1, db1) →
      make_reservation a2 t2 db1 = (.ok o2, db2) →
      o1.reservation_id ≠ o2.reservation_id) ∧
    (∀ (a : MakeArgs) (t : String) (db db' : List Reservation) (o : MakeOut),
      (db.map Reservation.reservation_id).Nodup →
      genReservationId t ∉ db.map Reservation.reservation_id →
      make_reservation a t db = (.ok o, db') →
      (db'.map Reservation.reservation_id).Nodup) := by
  constructor
  · intro a1 a2 t1 t2 db db1 db2 o1 o2 hne h1 h2
    have e1 : o1.reservation_id = genReservationId t1 := by
      simp only [make_reservation] at h1
      cases hdt : strptimeYMDHM (a1.date ++ " " ++ a1.time) with
      | none => rw [hdt] at h1; simp at h1
      | some dt =>
        rw [hdt] at h1
        simp only [Prod.mk.injEq, Except.ok.injEq] at h1
        rw [← h1.1]
    have e2 : o2.reservation_id = genReservationId t2 := by
      simp only [make_reservation] at h2
      cases hdt : strptimeYMDHM (a2.date ++ " " ++ a2.time) with
      | none => rw [hdt] at h2; simp at h2
      | some dt =>
        rw [hdt] at h2
        simp only [Prod.mk.injEq, Except.ok.injEq] at h2
        rw [← h2.1]
    rw [e1, e2]
    exact hne
  · intro a t db db' o hnd hnotin h
    simp only [make_reservation] at h
    cases hdt : strptimeYMDHM (a.date ++ " " ++ a.time) with
    | none => rw [hdt] at h; simp at h
    | some dt =>
      rw [hdt] at h
      simp only [Prod.mk.injEq, Except.ok.injEq] at h
      rw [← h.2]
      simp only [List.map_append, List.map_cons, List.map_nil, List.nodup_append]
      refine ⟨hnd, List.nodup_singleton _, ?_⟩
      intro x hx hxmem
      rw [List.mem_singleton] at hxmem
      subst hxmem
      exact hnotin hx

/-- C8 amended witness: distinct token prefixes at a concrete store give
distinct identifiers. -/
theorem c8_id_uniqueness_witness :
    ∃ o1 db1 o2 db2,
      make_reservation mkArgsA "aaaa1111-x" [] = (.ok o1, db1) ∧
      make_reservation mkArgsB "bbbb2222-y" db1 = (.ok o2, db2) ∧
      o1.reservation_id ≠ o2.reservation_id :=
  ⟨_, _, _, _, rfl, rfl,
    c8_id_uniqueness.1 mkArgsA mkArgsB "aaaa1111-x" "bbbb2222-y" [] _ _ _ _
      (by decide) rfl rfl⟩

/-- A sample high-rated place returned by the places API. -/
def placeHigh : PlaceResult :=
  { place_id := "p1"
    name := "Rossi"
    vicinity := "1 Via Roma"
    rating := some 5
    price_level := some 2
    types := ["restaurant"]
    open_now := some true }

/-- A sample low-rated place returned by the places API. -/
def placeLow : PlaceResult :=
  { place_id := "p2"
    name := "Dive"
    vicinity := "9 Back Alley"
    rating := some 3
    price_level := none
    types := []
    open_now := none }

/-- C6 counterexample: a successful search_restaurants call with
max_results = -1 — Python slicing then drops entries from the end rather
than capping the count — returns more entries than max_results. -/
theorem c6_max_results_counterexample :
    ∃ out, search_restaurants true "LA" [(34, -118)] (some [placeHigh, placeLow])
        (fun _ => none) 4 (-1) = .ok out ∧
      ¬ ((out.restaurants.length : Int) ≤ -1) :=
  ⟨_, rfl, by decide⟩

/-- C6 amended: every returned restaurant passes the min_rating filter, and
whenever max_results is nonnegative (its documented range is positive) the
returned list has at most max_results entries; for negative max_results
Python slice semantics drop entries from the end instead, so the numeric
bound fails there. -/
theorem c6_search_bounds (hasApiKey : Bool) (location : String)
    (geocodeResults : List (ℚ × ℚ)) (placesResults : Option (List PlaceResult))
    (getDetails : String → Option DetailInfo) (min_rating : ℚ) (max_results : Int)
    (out : SearchOut)
    (h : search_restaurants hasApiKey location geocodeResults placesResults getDetails
        min_rating max_results = .ok out) :
    (∀ e ∈ out.restaurants, min_rating ≤ e.rating) ∧
    (0 ≤ max_results → (out.restaurants.length : Int) ≤ max_results) := by
  simp only [search_restaurants] at h
  cases hasApiKey with
  | false => simp at h
  | true =>
    cases geocodeResults with
    | nil => simp at h
    | cons coord gs =>
      cases placesResults with
      | none => simp at h
      | some results =>
        simp only [Bool.not_true, Bool.false_eq_true, if_false, Except.ok.injEq] at h
        subst h
        constructor
        · intro e he
          simp only [List.mem_map] at he
          obtain ⟨e0, he0, hee⟩ := he
          have he0' := List.mem_of_mem_take he0
          simp only [List.mem_map] at he0'
          obtain ⟨r0, hr0, her⟩ := he0'
          have hp := (List.mem_filter.mp hr0).2
          have hrat : min_rating ≤ r0.rating.getD 0 := of_decide_eq_true hp
          subst hee
          subst her
          cases hgd : getDetails (buildEntry r0).place_id <;> simp only [hgd] <;>
            exact hrat
        · intro hmr
          have l1 : (((((pySliceTo results max_results).filter
              (fun r => decide (min_rating ≤ r.rating.getD 0))).map buildEntry).take 5).map
              (fun e => match getDetails e.place_id with
                | some d => { e with details := some d }
                | none => e)).length ≤
              (((pySliceTo results max_results).filter
                (fun r => decide (min_rating ≤ r.rating.getD 0))).map buildEntry).length := by
            simp only [List.length_map, List.length_take]
            omega
          have l2 : (((pySliceTo results max_results).filter
              (fun r => decide (min_rating ≤ r.rating.getD 0))).map buildEntry).length ≤
              (pySliceTo results max_results).length := by
            simp only [List.length_map]
            exact List.length_filter_le _ _
          have l3 : (pySliceTo results max_results).length ≤ max_results.toNat := by
            unfold pySliceTo
            rw [if_pos hmr]
            simp [List.length_take]
          simp only [List.length_map] at l1 l2 ⊢
          omega

/-- C6 amended witness: the bounds at a concrete successful call. -/
theorem c6_search_bounds_witness :
    ∃ out, search_restaurants true "LA" [(34, -118)] (some [placeHigh, placeLow])
        (fun _ => none) 4 10 = .ok out ∧
      (∀ e ∈ out.restaurants, (4 : ℚ) ≤ e.rating) ∧
      (0 ≤ (10 : Int) → (out.restaurants.length : Int) ≤ 10) :=
  ⟨_, rfl, c6_search_bounds true "LA" [(34, -118)] (some [placeHigh, placeLow])
      (fun _ => none) 4 10 _ rfl⟩

/-- C9 counterexample: with max_results = -1 a successful call returns more
entries than min(5, max_results), because Python slicing drops entries from
the end for a negative bound instead of capping the count. -/
theorem c9_cap_counterexample :
    ∃ out, search_restaurants true "LA" [(34, -118)]
        (some [placeHigh, placeLow, placeLow]) (fun _ => none) 0 (-1) = .ok out ∧
      ¬ ((out.restaurants.length : Int) ≤ min 5 (-1)) :=
  ⟨_, rfl, by decide⟩

/-- C9 amended: for nonnegative max_results the returned list has at most
min(5, max_results) entries while total_found counts all rating-filtered
results of the max_results slice (before the detail cap of 5), so
total_found can strictly exceed the number of returned entries — witnessed
by a call where six results pass the filter; for negative max_results the
cap bound fails because Python slicing drops entries from the end. -/
theorem c9_search_cap :
    (∀ (hasApiKey : Bool) (location : String) (geocodeResults : List (ℚ × ℚ))
        (placesResults : Option (List PlaceResult)) (getDetails : String → Option DetailInfo)
        (min_rating : ℚ) (max_results : Int) (out : SearchOut),
      search_restaurants hasApiKey location geocodeResults placesResults getDetails
          min_rating max_results = .ok out →
      ((0 ≤ max_results → (out.restaurants.length : Int) ≤ min 5 max_results) ∧
        ∃ results, placesResults = some results ∧
          out.total_found = ((pySliceTo results max_results).filter
            (fun r => decide (min_rating ≤ r.rating.getD 0))).length ∧
          out.restaurants.length ≤ out.total_found)) ∧
    (∃ out, search_restaurants true "LA" [(34, -118)]
        (some (List.replicate 6 placeHigh)) (fun _ => none) 0 10 = .ok out ∧
      out.restaurants.length < out.total_found) := by
  constructor
  · intro hasApiKey location geocodeResults placesResults getDetails min_rating
      max_results out h
    simp only [search_restaurants] at h
    cases hasApiKey with
    | false => simp at h
    | true =>
      cases geocodeResults with
      | nil => simp at h
      | cons coord gs =>
        cases placesResults with
        | none => simp at h
        | some results =>
          simp only [Bool.not_true, Bool.false_eq_true, if_false, Except.ok.injEq] at h
          subst h
          constructor
          · intro hmr
            have l3 : (pySliceTo results max_results).length ≤ max_results.toNat := by
              unfold pySliceTo
              rw [if_pos hmr]
              simp [List.length_take]
            have l2 := List.length_filter_le
              (fun r => decide (min_rating ≤ r.rating.getD 0)) (pySliceTo results max_results)
            simp only [List.length_map, List.length_take]
            omega
          · refine ⟨results, rfl, ?_, ?_⟩
            · simp only [List.length_map]
            · simp only [List.length_map, List.length_take]
              omega
  · exact ⟨_, rfl, by decide⟩

/-- C9 amended witness: the cap and count at a concrete successful call with
six passing results. -/
theorem c9_search_cap_witness :
    ∃ out, search_restaurants true "LA" [(34, -118)]
        (some (List.replicate 6 placeHigh)) (fun _ => none) 0 10 = .ok out ∧
      (0 ≤ (10 : Int) → (out.restaurants.length : Int) ≤ min 5 10) ∧
      ∃ results, (some (List.replicate 6 placeHigh) : Option (List PlaceResult)) = some results ∧
        out.total_found = ((pySliceTo results 10).filter
          (fun r => decide ((0 : ℚ) ≤ r.rating.getD 0))).length ∧
        out.restaurants.length ≤ out.total_found :=
  ⟨_, rfl, c9_search_cap.1 true "LA" [(34, -118)] (some (List.replicate 6 placeHigh))
      (fun _ => none) 0 10 _ rfl⟩

end Theorems

end RestaurantReserve
